import Mathlib

/-!
Shallow embedding of the repository's three pipelines:

* `validation.py` — cross-source TVL validator: per-file extraction
  (`extract_tvl_data`: column selection, date normalisation, group-by-date
  with mean), outer merge on date, sort, statistics and correlation gate
  (`create_validation_file`), and the `main` driver with
  `load_morpho_vaults` / `find_matching_files`.
* `defi_llama_validation.py` — historical-series fetcher: `get_historical_data`
  (HTTP status and payload checks) and the per-vault `main` loop writing one
  CSV per vault into `OUTPUT_DIR`.
* `dune_to_sheets.py` — Dune query export: `get_query_results`,
  `execute_query` (polling), `CSVExporter.save_dataframe` /
  `append_dataframe`, `query_to_csv`, `get_data_as_csv_string`,
  `get_dataframe`, and the batch `main`.

Dates are modelled as `Nat` (days), values as `ℚ`.  Fallible operations
return `Except String _`; remote services are modelled as explicit inputs.
-/

/-! ### validation.py : extraction (`extract_tvl_data`) -/

/-- A raw (date, value) record after column selection and date
normalisation in `extract_tvl_data`. -/
abbrev RawRow := Nat × ℚ

/-- Values of `rows` that fall on date `d`
(`result_df.groupby('date')` group for key `d`). -/
def valuesAt (rows : List RawRow) (d : Nat) : List ℚ :=
  (rows.filter (fun p => p.1 == d)).map Prod.snd

/-- Arithmetic mean of the values on date `d` (`.mean()` inside the
group-by of `extract_tvl_data`). -/
def meanAt (rows : List RawRow) (d : Nat) : ℚ :=
  (valuesAt rows d).sum / ((valuesAt rows d).length : ℚ)

/-- The distinct dates of `rows` in ascending order: the group keys of
`result_df.groupby('date')` (pandas sorts group keys ascending). -/
def groupKeys (rows : List RawRow) : List Nat :=
  ((rows.map Prod.fst).dedup).mergeSort (fun a b => a ≤ b)

/-- Final group-by step of `extract_tvl_data`:
`result_df.groupby('date')[value].mean().reset_index()` — one row per
distinct date, carrying the mean of that date's values. -/
def extract_tvl_data (rows : List RawRow) : List RawRow :=
  (groupKeys rows).map (fun d => (d, meanAt rows d))

/-! ### validation.py : merge (`create_validation_file`) -/

/-- A row of the merged validation table: date, `tvl_defillama`,
`tvl_dune`; `none` is pandas `NaN` introduced by the outer merge. -/
abbrev MergedRow := Nat × Option ℚ × Option ℚ

/-- Model of `pd.merge(a, b, on='date', how='outer')`: every left row is matched
against all right rows with the same date (right value `none` when there
is no match), followed by the right rows whose date never occurs on the
left (left value `none`). -/
def outerMerge (a b : List RawRow) : List MergedRow :=
  (a.flatMap (fun p =>
    if (b.filter (fun q => q.1 == p.1)).isEmpty then [(p.1, some p.2, none)]
    else (b.filter (fun q => q.1 == p.1)).map (fun q => (p.1, some p.2, some q.2)))) ++
  ((b.filter (fun q => !((a.map Prod.fst).contains q.1))).map
    (fun q => (q.1, none, some q.2)))

/-- Model of `merged_df.sort_values('date')`. -/
def sortByDate (rows : List MergedRow) : List MergedRow :=
  rows.mergeSort (fun x y => x.1 ≤ y.1)

/-- The merged table built by `create_validation_file` from the two
extracted series. -/
def create_validation_table (defillama_df dune_df : List RawRow) : List MergedRow :=
  sortByDate (outerMerge defillama_df dune_df)

/-! ### validation.py : statistics and correlation gate -/

/-- Model of `merged_df[['tvl_defillama','tvl_dune']].dropna()` — the rows of the
merged table where both value columns are present. -/
def bothPresent (m : List MergedRow) : List (ℚ × ℚ) :=
  m.filterMap (fun r =>
    match r.2.1, r.2.2 with
    | some x, some y => some (x, y)
    | _, _ => none)

/-- The three moments determining the Pearson coefficient of a paired
sample: `(n·Σxy − Σx·Σy, n·Σx² − (Σx)², n·Σy² − (Σy)²)`; the coefficient
itself is the first divided by the square root of the product of the
other two. -/
def pearsonMoments (l : List (ℚ × ℚ)) : ℚ × ℚ × ℚ :=
  let n : ℚ := (l.length : ℚ)
  let sx := (l.map Prod.fst).sum
  let sy := (l.map Prod.snd).sum
  let sxy := (l.map (fun p => p.1 * p.2)).sum
  let sxx := (l.map (fun p => p.1 * p.1)).sum
  let syy := (l.map (fun p => p.2 * p.2)).sum
  (n * sxy - sx * sy, n * sxx - sx * sx, n * syy - sy * sy)

/-- The correlation reported by `create_validation_file`: computed only
when `both_count > 1` and, after `dropna()`, `len(overlapping) > 1`;
otherwise nothing is produced. -/
def correlationReport (m : List MergedRow) : Option (ℚ × ℚ × ℚ) :=
  let both_count := (bothPresent m).length
  if both_count > 1 then
    let overlapping := bothPresent m
    if overlapping.length > 1 then some (pearsonMoments overlapping)
    else none
  else none

/-! ### dune_to_sheets.py : DataFrames and CSV -/

/-- A pandas DataFrame as built from a list of row dicts: column names
and rows of string cells. `pd.DataFrame()` is `DF.emptyDF`. -/
structure DF where
  cols : List String
  rows : List (List String)
deriving Repr, DecidableEq

/-- Model of `pd.DataFrame()` — no columns, no rows. -/
def DF.emptyDF : DF := ⟨[], []⟩

/-- Model of `df.empty` — true when the frame has no rows or no columns. -/
def DF.emptyB (df : DF) : Bool := df.rows.isEmpty || df.cols.isEmpty

/-- Model of `df.to_csv(index=False)` — header line then one line per row, each
line newline-terminated. -/
def DF.toCsv (df : DF) : String :=
  String.intercalate "," df.cols ++ "\n" ++
    String.join (df.rows.map (fun r => String.intercalate "," r ++ "\n"))

/-! ### dune_to_sheets.py : DuneClient -/

/-- The remote state a fresh execution interacts with: the execution id
returned by the execute call (absent on failure), the sequence of states
the status poll observes, and the rows/columns of the final result. -/
structure DuneRemote where
  execution_id : Option String
  states : List String
  result_rows : List (List String)
  result_cols : List String

/-- Model of `DuneClient.get_query_results`: build a DataFrame from the latest
result rows; empty row list gives `pd.DataFrame()`. -/
def get_query_results (result_rows : List (List String))
    (result_cols : List String) : DF :=
  if result_rows.isEmpty then DF.emptyDF else ⟨result_cols, result_rows⟩

/-- Whether a polled state keeps the `execute_query` loop waiting. -/
def isPending (s : String) : Bool := s == "EXECUTING" || s == "PENDING"

/-- The polling loop of `DuneClient.execute_query`: wait through
`EXECUTING`/`PENDING`, stop at `COMPLETED`, raise on any other state.
The source loops forever if the trace never reaches a terminal state;
that case is modelled as a distinguished error. -/
def pollLoop : List String → Except String Unit
  | [] => Except.error "polling never observed a terminal state"
  | s :: rest =>
    if isPending s then pollLoop rest
    else if s == "COMPLETED" then Except.ok ()
    else Except.error ("Query execution failed with state: " ++ s)

/-- Model of `DuneClient.execute_query`: start execution (error when no
execution id is returned), poll to completion, then fetch results. -/
def execute_query (r : DuneRemote) : Except String DF :=
  match r.execution_id with
  | none => Except.error "Failed to start query execution"
  | some _ =>
    match pollLoop r.states with
    | Except.error e => Except.error e
    | Except.ok _ =>
      Except.ok (if r.result_rows.isEmpty then DF.emptyDF
                 else ⟨r.result_cols, r.result_rows⟩)

/-! ### dune_to_sheets.py : CSVExporter -/

/-- A line of a CSV file on disk, tagged by whether `to_csv` wrote it as
the header or as a data row. -/
inductive CsvLine where
  | header (cols : List String)
  | row (vals : List String)
deriving Repr, DecidableEq

/-- Number of header lines in a file's content. -/
def countHeaders (content : List CsvLine) : Nat :=
  (content.filter (fun l => match l with | CsvLine.header _ => true | _ => false)).length

/-- Model of `CSVExporter.save_dataframe`: overwrite with header plus rows. -/
def save_dataframe (df : DF) : List CsvLine :=
  CsvLine.header df.cols :: df.rows.map CsvLine.row

/-- Model of `CSVExporter.append_dataframe` acting on the target file's prior
content (`none` = file does not exist): the header is written iff the
file did not exist, then the rows are appended. -/
def append_dataframe (file : Option (List CsvLine)) (df : DF) : List CsvLine :=
  let write_header := file.isNone
  file.getD [] ++
    (if write_header then [CsvLine.header df.cols] else []) ++
    df.rows.map CsvLine.row

/-! ### dune_to_sheets.py : DuneToCSV -/

/-- Model of `DuneToCSV.query_to_csv` with `execute_fresh=False`: fetch the
latest results, raise on an empty frame, otherwise save to `filename`.
`ok` carries the written file (name and tagged content). -/
def query_to_csv (result_rows : List (List String)) (result_cols : List String)
    (filename : String) : Except String (String × List CsvLine) :=
  let df := get_query_results result_rows result_cols
  if df.emptyB then Except.error "No data returned from Dune query"
  else Except.ok (filename, save_dataframe df)

/-- Model of `DuneToCSV.query_to_csv` with `execute_fresh=True`: execute, raise
on failure or on an empty frame, otherwise save to `filename`. -/
def query_to_csv_fresh (r : DuneRemote) (filename : String) :
    Except String (String × List CsvLine) :=
  match execute_query r with
  | Except.error e => Except.error e
  | Except.ok df =>
    if df.emptyB then Except.error "No data returned from Dune query"
    else Except.ok (filename, save_dataframe df)

/-- The files written by a `query_to_csv` call: one on success, none
when it raised. -/
def filesWritten (res : Except String (String × List CsvLine)) : List String :=
  match res with
  | Except.ok (f, _) => [f]
  | Except.error _ => []

/-- Model of `DuneToCSV.get_data_as_csv_string` with `execute_fresh=False`:
returns `df.to_csv(index=False)` with no empty-result check. -/
def get_data_as_csv_string (result_rows : List (List String))
    (result_cols : List String) : Except String String :=
  Except.ok (get_query_results result_rows result_cols).toCsv

/-- Model of `DuneToCSV.get_dataframe` with `execute_fresh=False`: returns the
frame as is, with no empty-result check. -/
def get_dataframe (result_rows : List (List String))
    (result_cols : List String) : Except String DF :=
  Except.ok (get_query_results result_rows result_cols)

/-- The batch loop of `main` in dune_to_sheets.py: the whole `for` loop
over query ids sits inside a single `try`, so the first raising query
ends the batch (the `except` prints the error).  Returns the
successfully processed `(query_id, file)` pairs and the caught error,
if any. -/
def duneMain (fetch : Nat → Except String (String × List CsvLine)) :
    List Nat → List (Nat × String) × Option String
  | [] => ([], none)
  | qid :: rest =>
    match fetch qid with
    | Except.error e => ([], some e)
    | Except.ok fc =>
      ((qid, fc.1) :: (duneMain fetch rest).1, (duneMain fetch rest).2)

/-! ### defi_llama_validation.py -/

/-- Value of `OUTPUT_DIR` in defi_llama_validation.py, where the fetcher's
per-vault CSV files go. -/
def llama_OUTPUT_DIR : String := "data/validation"

/-- The directory of provider-A (DeFi Llama) files that
`find_matching_files` in validation.py scans. -/
def validator_defillama_dir : String := "data/defillama"

/-- The directory of provider-B (Dune) files that `find_matching_files`
in validation.py scans. -/
def validator_dune_dir : String := "data/dune"

/-- The directory `create_validation_file` in validation.py writes the
merged validation output into. -/
def validator_validation_dir : String := "data/validation"

/-- One point of the `https://yields.llama.fi/chart/...` payload's
`data` array (timestamp, tvl, apy — content is opaque to the control
flow modelled here). -/
structure ChartPoint where
  payload : String
deriving Repr, DecidableEq

/-- The HTTP response for a pool: status code, and the `data` field of
the JSON body (`none` when the key is absent). -/
structure LlamaResp where
  status : Nat
  data : Option (List ChartPoint)

/-- A vault entry of morpho_vaults.json. -/
structure Vault where
  symbol : String
  pool_id : String
  project : String
  chain : String
deriving Repr, DecidableEq

/-- Model of `get_historical_data`: `None` on a non-200 status, on a payload
without a `data` key, or on an empty `data` array; the array otherwise. -/
def get_historical_data (resp : LlamaResp) : Option (List ChartPoint) :=
  if resp.status ≠ 200 then none
  else
    match resp.data with
    | none => none
    | some d => if d.isEmpty then none else some d

/-- The output path the fetcher's `main` uses for a vault:
`f'{OUTPUT_DIR}/{vault["project"]}_{vault["chain"]}_{vault["symbol"]}.csv'`. -/
def llamaFilename (v : Vault) : String :=
  llama_OUTPUT_DIR ++ "/" ++ v.project ++ "_" ++ v.chain ++ "_" ++ v.symbol ++ ".csv"

/-- The per-vault loop of `main` in defi_llama_validation.py: for each
vault fetch its historical data; when present, write one CSV file; when
absent, write nothing and continue with the next vault.  Returns the
written files in order. -/
def llamaMainLoop (fetch : String → LlamaResp) (vaults : List Vault) :
    List (String × List ChartPoint) :=
  vaults.filterMap (fun v =>
    (get_historical_data (fetch v.pool_id)).map (fun d => (llamaFilename v, d)))

/-- The state of morpho_vaults.json on disk: `missing`, present with
`invalid` JSON, or present and `valid`. -/
inductive VaultFile where
  | missing
  | invalid
  | valid (vaults : List Vault)

/-- Model of `main` of defi_llama_validation.py: `open('morpho_vaults.json')` and
`json.load` are not guarded, so a missing file or invalid JSON raises
before any vault is processed; otherwise the per-vault loop runs. -/
def llamaMain (file : VaultFile) (fetch : String → LlamaResp) :
    Except String (List (String × List ChartPoint)) :=
  match file with
  | VaultFile.missing => Except.error "FileNotFoundError: morpho_vaults.json"
  | VaultFile.invalid => Except.error "json.JSONDecodeError"
  | VaultFile.valid vaults => Except.ok (llamaMainLoop fetch vaults)

/-! ### validation.py : main driver -/

/-- Model of `load_morpho_vaults` in validation.py: both `FileNotFoundError` and
`json.JSONDecodeError` are caught, an error is printed, and the empty
list is returned. -/
def load_morpho_vaults (file : VaultFile) : List Vault :=
  match file with
  | VaultFile.missing => []
  | VaultFile.invalid => []
  | VaultFile.valid vaults => vaults

/-- Model of `main` of validation.py: load the vaults (used only for a printed
count), then process every matching file pair regardless.  Each pair is
given as the two extracted raw series (`none` when extraction failed for
that side); a pair merges when both sides extracted.  Returns the merged
validation tables that get written. -/
def validationMain (file : VaultFile)
    (pairs : List (Option (List RawRow) × Option (List RawRow))) :
    List (List MergedRow) :=
  let _vaults := load_morpho_vaults file
  pairs.filterMap (fun pr =>
    match pr.1, pr.2 with
    | some a, some b => some (create_validation_table a b)
    | _, _ => none)

/-! ### Supporting lemmas -/

/-- Value of the first row of `l` on date `d`, if any. -/
def lookupVal (l : List RawRow) (d : Nat) : Option ℚ :=
  (l.find? (fun q => q.1 == d)).map Prod.snd

theorem filter_key_eq_nil {b : List RawRow} {d : Nat} (h : d ∉ b.map Prod.fst) :
    b.filter (fun q => q.1 == d) = [] := by
  rw [List.filter_eq_nil_iff]
  intro q hq hqd
  exact h (List.mem_map.mpr ⟨q, hq, by simpa using hqd⟩)

theorem lookupVal_eq_none {b : List RawRow} {d : Nat} :
    lookupVal b d = none ↔ d ∉ b.map Prod.fst := by
  unfold lookupVal
  constructor
  · intro h hmem
    obtain ⟨q, hq, hqd⟩ := List.mem_map.mp hmem
    rcases hf : List.find? (fun q => q.1 == d) b with _ | p
    · rw [List.find?_eq_none] at hf
      exact hf q hq (by simpa using hqd)
    · rw [hf] at h
      simp at h
  · intro h
    rcases hf : List.find? (fun q => q.1 == d) b with _ | p
    · rw [hf]
      rfl
    · exact absurd (List.mem_map.mpr ⟨p, List.mem_of_find?_eq_some hf,
        by simpa using List.find?_some hf⟩) h

theorem merge_cell_eq {b : List RawRow} (hb : (b.map Prod.fst).Nodup) (d : Nat) (v : ℚ) :
    (if (b.filter (fun q => q.1 == d)).isEmpty then [(d, some v, (none : Option ℚ))]
     else (b.filter (fun q => q.1 == d)).map (fun q => (d, some v, some q.2)))
      = [(d, some v, lookupVal b d)] := by
  induction b with
  | nil => simp [lookupVal]
  | cons q bs ih =>
    simp only [List.map_cons, List.nodup_cons] at hb
    by_cases hqd : q.1 = d
    · have hfil : bs.filter (fun x => x.1 == d) = [] :=
        filter_key_eq_nil (by rw [← hqd]; exact hb.1)
      simp [List.filter_cons, hqd, hfil, lookupVal, List.find?_cons]
    · have hqd' : (q.1 == d) = false := by simpa using hqd
      rw [List.filter_cons]
      simp only [hqd', Bool.false_eq_true, if_false]
      have hlk : lookupVal (q :: bs) d = lookupVal bs d := by
        simp [lookupVal, List.find?_cons, hqd']
      rw [hlk]
      exact ih hb.2

theorem outerMerge_left (a b : List RawRow) (hb : (b.map Prod.fst).Nodup) :
    outerMerge a b
      = a.map (fun p => (p.1, some p.2, lookupVal b p.1)) ++
        (b.filter (fun q => !((a.map Prod.fst).contains q.1))).map
          (fun q => (q.1, none, some q.2)) := by
  unfold outerMerge
  congr 1
  induction a with
  | nil => rfl
  | cons p as ih =>
    rw [List.flatMap_cons, List.map_cons, ih, merge_cell_eq hb p.1 p.2]
    rfl

theorem outerMerge_dates (a b : List RawRow) (hb : (b.map Prod.fst).Nodup) :
    (outerMerge a b).map Prod.fst
      = a.map Prod.fst ++
        ((b.filter (fun q => !((a.map Prod.fst).contains q.1))).map Prod.fst) := by
  rw [outerMerge_left a b hb, List.map_append, List.map_map, List.map_map]
  rfl

theorem outerMerge_dates_nodup {a b : List RawRow}
    (ha : (a.map Prod.fst).Nodup) (hb : (b.map Prod.fst).Nodup) :
    ((outerMerge a b).map Prod.fst).Nodup := by
  rw [outerMerge_dates a b hb]
  refine List.Nodup.append ha ?_ ?_
  · exact hb.sublist ((List.filter_sublist b).map Prod.fst)
  · intro d hda hdf
    obtain ⟨q, hq, hqd⟩ := List.mem_map.mp hdf
    have := (List.mem_filter.mp hq).2
    rw [Bool.not_eq_true', List.contains_eq_any_beq] at this
    have hnot : q.1 ∉ a.map Prod.fst := by
      intro hmem
      have : (a.map Prod.fst).any (fun x => x == q.1) = true :=
        List.any_eq_true.mpr ⟨q.1, hmem, by simp⟩
      simp_all
    exact hnot (hqd ▸ hda)

theorem contains_key_iff {l : List Nat} {d : Nat} :
    l.contains d = true ↔ d ∈ l := by
  simp [List.contains_iff_exists_mem_beq]

theorem not_contains_key_iff {l : List Nat} {d : Nat} :
    (!l.contains d) = true ↔ d ∉ l := by
  rw [Bool.not_eq_true', ← Bool.not_eq_true, contains_key_iff]

theorem outerMerge_dates_mem (a b : List RawRow) (hb : (b.map Prod.fst).Nodup)
    (d : Nat) :
    d ∈ (outerMerge a b).map Prod.fst ↔ d ∈ a.map Prod.fst ∨ d ∈ b.map Prod.fst := by
  rw [outerMerge_dates a b hb, List.mem_append]
  constructor
  · rintro (h | h)
    · exact Or.inl h
    · obtain ⟨q, hq, hqd⟩ := List.mem_map.mp h
      exact Or.inr (List.mem_map.mpr ⟨q, (List.mem_filter.mp hq).1, hqd⟩)
  · rintro (h | h)
    · exact Or.inl h
    · by_cases hda : d ∈ a.map Prod.fst
      · exact Or.inl hda
      · obtain ⟨q, hq, hqd⟩ := List.mem_map.mp h
        refine Or.inr (List.mem_map.mpr ⟨q, List.mem_filter.mpr ⟨hq, ?_⟩, hqd⟩)
        exact not_contains_key_iff.mpr (hqd ▸ hda)

theorem outerMerge_null_iff (a b : List RawRow) (hb : (b.map Prod.fst).Nodup) :
    ∀ x ∈ outerMerge a b,
      (x.2.1 = none ↔ x.1 ∉ a.map Prod.fst) ∧
      (x.2.2 = none ↔ x.1 ∉ b.map Prod.fst) := by
  rw [outerMerge_left a b hb]
  intro x hx
  rcases List.mem_append.mp hx with h | h
  · obtain ⟨p, hp, rfl⟩ := List.mem_map.mp h
    have hmem : p.1 ∈ a.map Prod.fst := List.mem_map.mpr ⟨p, hp, rfl⟩
    refine ⟨by simp [hmem], lookupVal_eq_none⟩
  · obtain ⟨q, hq, rfl⟩ := List.mem_map.mp h
    have hqb := (List.mem_filter.mp hq).1
    have hcond := not_contains_key_iff.mp (List.mem_filter.mp hq).2
    have hmem : q.1 ∈ b.map Prod.fst := List.mem_map.mpr ⟨q, hqb, rfl⟩
    exact ⟨by simp [hcond], by simp [hmem]⟩

theorem outerMerge_length_disjoint (a b : List RawRow)
    (hb : (b.map Prod.fst).Nodup)
    (hdisj : ∀ d ∈ a.map Prod.fst, d ∉ b.map Prod.fst) :
    (outerMerge a b).length = a.length + b.length := by
  rw [outerMerge_left a b hb, List.length_append, List.length_map, List.length_map]
  have : b.filter (fun q => !((a.map Prod.fst).contains q.1)) = b := by
    rw [List.filter_eq_self]
    intro q hq
    refine not_contains_key_iff.mpr ?_
    intro hqa
    exact hdisj q.1 hqa (List.mem_map.mpr ⟨q, hq, rfl⟩)
  rw [this]

theorem sortByDate_perm (m : List MergedRow) : List.Perm (sortByDate m) m :=
  List.mergeSort_perm m _

theorem sortByDate_sorted (m : List MergedRow) :
    (sortByDate m).Pairwise (fun x y => x.1 ≤ y.1) := by
  have h := @List.sorted_mergeSort MergedRow (fun x y => decide (x.1 ≤ y.1))
    (fun a b c hab hbc => by
      simp only [decide_eq_true_eq] at *
      omega)
    (fun a b => by
      simp only [Bool.or_eq_true, decide_eq_true_eq]
      omega) m
  exact h.imp (by simp)

theorem keys_extract (r : List RawRow) :
    (extract_tvl_data r).map Prod.fst = groupKeys r := by
  unfold extract_tvl_data
  rw [List.map_map]
  exact List.map_id _

theorem nodup_keys_extract (r : List RawRow) :
    ((extract_tvl_data r).map Prod.fst).Nodup := by
  rw [keys_extract]
  unfold groupKeys
  exact ((List.mergeSort_perm _ _).nodup_iff).mpr (List.nodup_dedup _)

theorem mem_keys_extract (r : List RawRow) (d : Nat) :
    d ∈ (extract_tvl_data r).map Prod.fst ↔ d ∈ r.map Prod.fst := by
  rw [keys_extract]
  unfold groupKeys
  rw [List.mem_mergeSort, List.mem_dedup]

theorem countHeaders_append (c₁ c₂ : List CsvLine) :
    countHeaders (c₁ ++ c₂) = countHeaders c₁ + countHeaders c₂ := by
  simp [countHeaders, List.filter_append]

theorem countHeaders_rows (rs : List (List String)) :
    countHeaders (rs.map CsvLine.row) = 0 := by
  induction rs with
  | nil => rfl
  | cons r rest ih => simp [countHeaders, List.filter_cons]

/-! ### Claim theorems -/

/-- C7: `append_dataframe` writes a header iff the target file does not
already exist, so two appends on an initially non-existent file give
exactly one header line: the first call writes header plus rows, the
second rows only. -/
theorem C7_append_header_once (file : Option (List CsvLine)) (df df₁ df₂ : DF) :
    countHeaders (append_dataframe file df)
      = countHeaders (file.getD []) + (if file.isNone then 1 else 0) ∧
    append_dataframe (some (append_dataframe none df₁)) df₂
      = CsvLine.header df₁.cols ::
          (df₁.rows.map CsvLine.row ++ df₂.rows.map CsvLine.row) ∧
    countHeaders (append_dataframe (some (append_dataframe none df₁)) df₂) = 1 := by
  refine ⟨?_, ?_, ?_⟩
  · cases file with
    | none => simp [append_dataframe, countHeaders_append, countHeaders_rows, countHeaders]
    | some c => simp [append_dataframe, countHeaders_append, countHeaders_rows]
  · simp [append_dataframe]
  · simp [append_dataframe, countHeaders_append, countHeaders_rows, countHeaders]

/-- C8: `create_validation_file` reports a correlation exactly when at
least two merged rows carry both sources' values, and it is then the
Pearson statistic of precisely those rows. -/
theorem C8_correlation_gate (m : List MergedRow) :
    correlationReport m =
      if 2 ≤ (bothPresent m).length then some (pearsonMoments (bothPresent m))
      else none := by
  unfold correlationReport
  by_cases h : (bothPresent m).length > 1
  · have h2 : 2 ≤ (bothPresent m).length := h
    simp [h, h2]
  · have h2 : ¬ 2 ≤ (bothPresent m).length := by omega
    simp [h, h2]

/-- C10: on a query whose remote result set has zero rows,
`get_dataframe` returns the empty DataFrame and `get_data_as_csv_string`
its CSV serialisation, neither raising; both operations are total, and
the "No data returned" error arises in the `query_to_csv` export path. -/
theorem C10_empty_result_no_raise (result_cols : List String) (fname : String) :
    get_dataframe [] result_cols = Except.ok DF.emptyDF ∧
    get_data_as_csv_string [] result_cols = Except.ok DF.emptyDF.toCsv ∧
    (∀ rows cols, ∃ df, get_dataframe rows cols = Except.ok df) ∧
    (∀ rows cols, ∃ s, get_data_as_csv_string rows cols = Except.ok s) ∧
    query_to_csv [] result_cols fname
      = Except.error "No data returned from Dune query" := by
  exact ⟨rfl, rfl, fun rows cols => ⟨_, rfl⟩, fun rows cols => ⟨_, rfl⟩, rfl⟩

/-- C4: the historical-series fetcher writes its per-vault files into
`data/validation` — the directory the validator writes merged output
into — and not into `data/defillama`, the provider-A directory the
validator scans for pairing. -/
theorem C4_fetcher_output_dir :
    llamaFilename ⟨"steakUSDC", "pool-0001", "morpho-blue", "Ethereum"⟩
      = "data/validation/morpho-blue_Ethereum_steakUSDC.csv" ∧
    llama_OUTPUT_DIR = validator_validation_dir ∧
    llama_OUTPUT_DIR ≠ validator_defillama_dir := by
  refine ⟨rfl, rfl, ?_⟩
  decide

theorem pollLoop_append_terminal (pendings : List String) (t : String)
    (hp : ∀ s ∈ pendings, isPending s = true)
    (ht : isPending t = false) (hc : t ≠ "COMPLETED") :
    pollLoop (pendings ++ [t])
      = Except.error ("Query execution failed with state: " ++ t) := by
  induction pendings with
  | nil =>
    have hc' : (t == "COMPLETED") = false := by simpa using hc
    simp [pollLoop, ht, hc']
  | cons s ss ih =>
    have hs := hp s (List.mem_cons_self s ss)
    simp only [List.cons_append, pollLoop, hs, if_true]
    exact ih (fun x hx => hp x (List.mem_cons_of_mem s hx))

/-- C5: in fresh-execution mode, a polled terminal state other than
COMPLETED makes the operation raise an error naming that state, and no
output file is written for that query. -/
theorem C5_failed_state (eid : String) (pendings : List String) (t : String)
    (rows : List (List String)) (cols : List String) (fname : String)
    (hp : ∀ s ∈ pendings, isPending s = true)
    (ht : isPending t = false) (hc : t ≠ "COMPLETED") :
    query_to_csv_fresh ⟨some eid, pendings ++ [t], rows, cols⟩ fname
      = Except.error ("Query execution failed with state: " ++ t) ∧
    filesWritten
        (query_to_csv_fresh ⟨some eid, pendings ++ [t], rows, cols⟩ fname) = [] := by
  have hpoll := pollLoop_append_terminal pendings t hp ht hc
  constructor
  · simp [query_to_csv_fresh, execute_query, hpoll]
  · simp [filesWritten, query_to_csv_fresh, execute_query, hpoll]

/-- Witness for C5 at a concrete remote whose poll trace ends in
FAILED. -/
theorem C5_failed_state_witness :
    query_to_csv_fresh
        ⟨some "exec-1", ["PENDING", "EXECUTING"] ++ ["FAILED"], [["1"]], ["c"]⟩
        "out.csv"
      = Except.error ("Query execution failed with state: " ++ "FAILED") ∧
    filesWritten
        (query_to_csv_fresh
          ⟨some "exec-1", ["PENDING", "EXECUTING"] ++ ["FAILED"], [["1"]], ["c"]⟩
          "out.csv") = [] :=
  C5_failed_state "exec-1" ["PENDING", "EXECUTING"] "FAILED" [["1"]] ["c"] "out.csv"
    (by decide) (by decide) (by decide)

/-- C6: a vault whose fetch has non-200 status, or whose payload lacks a
non-empty `data` field, contributes no output file, and the vaults after
it are processed exactly as if it were absent. -/
theorem C6_vault_skip (fetch : String → LlamaResp) (pre post : List Vault) (v : Vault)
    (h : (fetch v.pool_id).status ≠ 200 ∨ (fetch v.pool_id).data = none ∨
         (fetch v.pool_id).data = some []) :
    llamaMainLoop fetch (pre ++ v :: post)
      = llamaMainLoop fetch pre ++ llamaMainLoop fetch post := by
  have hnone : get_historical_data (fetch v.pool_id) = none := by
    unfold get_historical_data
    rcases h with h | h | h
    · simp [h]
    · rw [h]
      split <;> rfl
    · rw [h]
      split <;> simp
  simp [llamaMainLoop, List.filterMap_append, List.filterMap_cons, hnone]

/-- Witness for C6: the middle vault's pool returns HTTP 500; the vaults
before and after it are still exported. -/
theorem C6_vault_skip_witness :
    llamaMainLoop
        (fun pid => if pid = "bad-pool" then ⟨500, none⟩ else ⟨200, some [⟨"pt"⟩]⟩)
        ([⟨"USDC", "good-1", "morpho", "eth"⟩] ++
          ⟨"WETH", "bad-pool", "morpho", "eth"⟩ :: [⟨"DAI", "good-2", "morpho", "eth"⟩])
      = llamaMainLoop
          (fun pid => if pid = "bad-pool" then ⟨500, none⟩ else ⟨200, some [⟨"pt"⟩]⟩)
          [⟨"USDC", "good-1", "morpho", "eth"⟩]
        ++ llamaMainLoop
            (fun pid => if pid = "bad-pool" then ⟨500, none⟩ else ⟨200, some [⟨"pt"⟩]⟩)
            [⟨"DAI", "good-2", "morpho", "eth"⟩] :=
  C6_vault_skip _ _ _ _ (Or.inl (by decide))

/-- C9 counterexample: with morpho_vaults.json missing, the validator's
run still processes a file pair and produces a validation table — the
run does not stop before item processing. -/
theorem C9_counterexample :
    (validationMain VaultFile.missing [(some [(0, 1)], some [(1, 2)])]).length
      = 1 := rfl

/-- C9 amended: a missing or invalid morpho_vaults.json is fatal before
any item processing only in the fetcher; the validator reports it,
treats the vault list as empty, and processes every file pair
unchanged. -/
theorem C9_static_input (file : VaultFile) (fetch : String → LlamaResp)
    (pairs : List (Option (List RawRow) × Option (List RawRow)))
    (h : file = VaultFile.missing ∨ file = VaultFile.invalid) :
    (∃ e, llamaMain file fetch = Except.error e) ∧
    validationMain file pairs = validationMain (VaultFile.valid []) pairs := by
  rcases h with rfl | rfl
  · exact ⟨⟨_, rfl⟩, rfl⟩
  · exact ⟨⟨_, rfl⟩, rfl⟩

/-- Witness for C9 at the missing-file state. -/
theorem C9_static_input_witness :
    (∃ e, llamaMain VaultFile.missing (fun _ => ⟨200, some [⟨"pt"⟩]⟩)
        = Except.error e) ∧
    validationMain VaultFile.missing [(some [(3, 7)], none)]
      = validationMain (VaultFile.valid []) [(some [(3, 7)], none)] :=
  C9_static_input VaultFile.missing (fun _ => ⟨200, some [⟨"pt"⟩]⟩)
    [(some [(3, 7)], none)] (Or.inl rfl)

/-- Concrete fetcher for the C3 batch: the first query id yields an
empty result set, every other id yields one row. -/
def duneFetchEx : Nat → Except String (String × List CsvLine) := fun qid =>
  if qid = 5455942 then query_to_csv [] ["day", "tvl"] "morpho_vault_data_5455942.csv"
  else query_to_csv [["2024-01-01", "5"]] ["day", "tvl"] "morpho_vault_data_other.csv"

/-- C3 counterexample: query 5455942 raises the empty-result error and
query 5462213 would succeed, yet the batch processes nothing after the
error — the loop does not continue with the remaining ids. -/
theorem C3_counterexample :
    duneFetchEx 5455942 = Except.error "No data returned from Dune query" ∧
    duneFetchEx 5462213 = Except.ok ("morpho_vault_data_other.csv",
      [CsvLine.header ["day", "tvl"], CsvLine.row ["2024-01-01", "5"]]) ∧
    duneMain duneFetchEx [5455942, 5462213]
      = ([], some "No data returned from Dune query") := by
  refine ⟨rfl, ?_, rfl⟩
  rfl

/-- C3 amended: the empty-result error of one query is caught outside
the batch loop, so the queries before it are processed and the queries
after it are not. -/
theorem C3_batch_abort (fetch : Nat → Except String (String × List CsvLine))
    (pre post : List Nat) (qid : Nat) (e : String)
    (hpre : ∀ q ∈ pre, ∃ pr, fetch q = Except.ok pr)
    (hbad : fetch qid = Except.error e) :
    (duneMain fetch (pre ++ qid :: post)).2 = some e ∧
    (duneMain fetch (pre ++ qid :: post)).1.map Prod.fst = pre := by
  induction pre with
  | nil => simp [duneMain, hbad]
  | cons q qs ih =>
    obtain ⟨pr, hq⟩ := hpre q (List.mem_cons_self q qs)
    have ih' := ih (fun x hx => hpre x (List.mem_cons_of_mem q hx))
    simp only [List.cons_append, duneMain, hq, List.map_cons]
    exact ⟨ih'.1, by simp only [List.append_eq]; rw [ih'.2]⟩

/-- Witness for C3 amended: the query before the failing one is
processed, the one after it is not. -/
theorem C3_batch_abort_witness :
    (duneMain duneFetchEx ([5462213] ++ 5455942 :: [5462219])).2
      = some "No data returned from Dune query" ∧
    (duneMain duneFetchEx ([5462213] ++ 5455942 :: [5462219])).1.map Prod.fst
      = [5462213] :=
  C3_batch_abort duneFetchEx [5462213] [5462219] 5455942
    "No data returned from Dune query"
    (by
      intro q hq
      simp only [List.mem_singleton] at hq
      subst hq
      exact ⟨("morpho_vault_data_other.csv",
        [CsvLine.header ["day", "tvl"], CsvLine.row ["2024-01-01", "5"]]), rfl⟩)
    rfl

/-- C2: the aggregation step of `extract_tvl_data` leaves pairwise
distinct dates covering exactly the input's dates, and each surviving
row's value is the arithmetic mean of that date's values. -/
theorem C2_aggregate_mean (rows : List RawRow) :
    ((extract_tvl_data rows).map Prod.fst).Nodup ∧
    (∀ d, d ∈ (extract_tvl_data rows).map Prod.fst ↔ d ∈ rows.map Prod.fst) ∧
    (∀ p ∈ extract_tvl_data rows,
      p.2 = (valuesAt rows p.1).sum / ((valuesAt rows p.1).length : ℚ)) := by
  refine ⟨nodup_keys_extract rows, mem_keys_extract rows, ?_⟩
  intro p hp
  obtain ⟨d, _, rfl⟩ := List.mem_map.mp hp
  rfl

/-- Witness for C2: aggregating two samples on day 5 yields their mean. -/
theorem C2_aggregate_mean_witness :
    ((5 : Nat), (4 : ℚ)).2
      = (valuesAt [(5, 3), (5, 5)] ((5 : Nat), (4 : ℚ)).1).sum
        / ((valuesAt [(5, 3), (5, 5)] ((5 : Nat), (4 : ℚ)).1).length : ℚ) :=
  (C2_aggregate_mean [(5, 3), (5, 5)]).2.2 (5, 4)
    (by
      have h5 : meanAt [(5, 3), (5, 5)] 5 = 4 := by
        simp [meanAt, valuesAt]
        norm_num
      simp [extract_tvl_data, groupKeys, h5])

/-- C1: for extracted per-source series, the merged validation table has
strictly ascending dates (hence exactly one row per date), covers
exactly the union of the two series' dates, has a null value column
exactly where that source lacks the date, and on disjoint date sets its
row count is the sum of the two series' row counts. -/
theorem C1_merged_table (r1 r2 : List RawRow) :
    List.Pairwise (· < ·)
      ((create_validation_table (extract_tvl_data r1) (extract_tvl_data r2)).map
        Prod.fst) ∧
    (∀ d, d ∈ (create_validation_table (extract_tvl_data r1)
          (extract_tvl_data r2)).map Prod.fst
       ↔ d ∈ (extract_tvl_data r1).map Prod.fst ∨
         d ∈ (extract_tvl_data r2).map Prod.fst) ∧
    (∀ x ∈ create_validation_table (extract_tvl_data r1) (extract_tvl_data r2),
       (x.2.1 = none ↔ x.1 ∉ (extract_tvl_data r1).map Prod.fst) ∧
       (x.2.2 = none ↔ x.1 ∉ (extract_tvl_data r2).map Prod.fst)) ∧
    ((∀ d ∈ (extract_tvl_data r1).map Prod.fst,
        d ∉ (extract_tvl_data r2).map Prod.fst) →
      (create_validation_table (extract_tvl_data r1) (extract_tvl_data r2)).length
        = (extract_tvl_data r1).length + (extract_tvl_data r2).length) := by
  have ha := nodup_keys_extract r1
  have hb := nodup_keys_extract r2
  have hperm : List.Perm
      (create_validation_table (extract_tvl_data r1) (extract_tvl_data r2))
      (outerMerge (extract_tvl_data r1) (extract_tvl_data r2)) :=
    sortByDate_perm _
  have hpermd : List.Perm
      ((create_validation_table (extract_tvl_data r1) (extract_tvl_data r2)).map
        Prod.fst)
      ((outerMerge (extract_tvl_data r1) (extract_tvl_data r2)).map Prod.fst) :=
    hperm.map Prod.fst
  refine ⟨?_, ?_, ?_, ?_⟩
  · have hnd : ((create_validation_table (extract_tvl_data r1)
        (extract_tvl_data r2)).map Prod.fst).Nodup :=
      hpermd.nodup_iff.mpr (outerMerge_dates_nodup ha hb)
    have hle : ((create_validation_table (extract_tvl_data r1)
        (extract_tvl_data r2)).map Prod.fst).Pairwise (· ≤ ·) := by
      rw [List.pairwise_map]
      exact sortByDate_sorted _
    exact (hle.and hnd).imp (fun h => lt_of_le_of_ne h.1 h.2)
  · intro d
    rw [hpermd.mem_iff]
    exact outerMerge_dates_mem _ _ hb d
  · intro x hx
    exact outerMerge_null_iff _ _ hb x (hperm.mem_iff.mp hx)
  · intro hdisj
    rw [hperm.length_eq]
    exact outerMerge_length_disjoint _ _ hb hdisj

/-- Witness for C1 on two disjoint one-day series: the merged table has
two rows. -/
theorem C1_merged_table_witness :
    (create_validation_table (extract_tvl_data [(1, 10)])
        (extract_tvl_data [(2, 20)])).length
      = (extract_tvl_data [(1, 10)]).length + (extract_tvl_data [(2, 20)]).length :=
  (C1_merged_table [(1, 10)] [(2, 20)]).2.2.2
    (by rw [keys_extract, keys_extract]; simp [groupKeys])
